import Mathlib

/-!
# Verification of the drift-model server (`src/server/server.py`)

Shallow embedding of the `ServerState` random-walk model and the request
handler.  Python floats are modelled as rationals; the two random draws
consumed by `update_state` (the `random.uniform(-0.1, 0.1)` latency delta
and the `random.random()` error draw) are passed explicitly as arguments.
-/

namespace DriftServer

/-- Mirror of the Python class `ServerState`: `latency`, `error_rate`
(set to `0.01` in `__init__`), the boolean `error_state`, and
`last_request_time` (set to the construction time). -/
structure ServerState where
  latency : ℚ
  error_rate : ℚ
  error_state : Bool
  last_request_time : ℚ
deriving Repr, DecidableEq

/-- `ServerState.__init__`, with `time.time()` at construction passed as
`now`. -/
def ServerState.init (now : ℚ) : ServerState :=
  { latency := 0, error_rate := 1/100, error_state := false, last_request_time := now }

/-- The latency scale computed inside `update_state`:
`min(max(time_diff / 5.0, 0.1), 2.0)`. -/
def latency_scale (time_diff : ℚ) : ℚ :=
  min (max (time_diff / 5) (1/10)) 2

/-- The error scale computed inside `update_state`:
`min(max(time_diff / 10.0, 0.1), 2.0)`. -/
def error_scale (time_diff : ℚ) : ℚ :=
  min (max (time_diff / 10) (1/10)) 2

/-- The latency delta applied by `update_state`:
`random.uniform(-0.1, 0.1) * latency_scale`, with the draw passed as
`latencyDraw`. -/
def latency_change (s : ServerState) (now latencyDraw : ℚ) : ℚ :=
  latencyDraw * latency_scale (now - s.last_request_time)

/-- `ServerState.update_state`.  `now` is `time.time()` at the call,
`latencyDraw` the value drawn by `random.uniform(-0.1, 0.1)`, and
`errorDraw` the value drawn by `random.random()`. -/
def ServerState.update_state (s : ServerState) (now latencyDraw errorDraw : ℚ) :
    ServerState :=
  let time_diff := now - s.last_request_time
  let latency2 := max 0 (s.latency + latency_change s now latencyDraw)
  let error_state2 :=
    if errorDraw < 2/10 * error_scale time_diff then !s.error_state else s.error_state
  { s with latency := latency2, error_state := error_state2, last_request_time := now }

/-- `ServerState.simulate_error`: returns the current error flag. -/
def ServerState.simulate_error (s : ServerState) : Bool :=
  s.error_state

/-- An HTTP reply: the dict handed to `jsonify` plus the status code. -/
structure HttpReply where
  body : List (String × String)
  status : ℕ
deriving Repr, DecidableEq

/-- The state on which `handle_request` operates after `update_state`:
the handler constructs a fresh `ServerState()` and immediately calls
`update_state` on it. -/
def handle_request_state (tConstruct now latencyDraw errorDraw : ℚ) : ServerState :=
  (ServerState.init tConstruct).update_state now latencyDraw errorDraw

/-- The number of seconds `simulate_latency` sleeps inside
`handle_request`: the latency of the freshly updated state. -/
def handle_request_sleep (tConstruct now latencyDraw errorDraw : ℚ) : ℚ :=
  (handle_request_state tConstruct now latencyDraw errorDraw).latency

/-- `handle_request`: build a fresh `ServerState`, call `update_state`,
sleep, then reply 500 with an error body if `simulate_error` is true and
200 with the hello body otherwise. -/
def handle_request (tConstruct now latencyDraw errorDraw : ℚ) : HttpReply :=
  let state := handle_request_state tConstruct now latencyDraw errorDraw
  if state.simulate_error then
    { body := [("error", "Simulated server error")], status := 500 }
  else
    { body := [("message", "Hello, World!")], status := 200 }

/-- One `advance` call per list element: `(now, latencyDraw, errorDraw)`. -/
def runSeq : ServerState → List (ℚ × ℚ × ℚ) → ServerState
  | s, [] => s
  | s, (now, ld, ed) :: rest => runSeq (s.update_state now ld ed) rest

/-- The post-state after each call of a sequence of `update_state` calls. -/
def runStates : ServerState → List (ℚ × ℚ × ℚ) → List ServerState
  | _, [] => []
  | s, (now, ld, ed) :: rest =>
    s.update_state now ld ed :: runStates (s.update_state now ld ed) rest

/-- The `(latency, isErroring)` pair returned by each call of a sequence. -/
def runOutputs : ServerState → List (ℚ × ℚ × ℚ) → List (ℚ × Bool)
  | _, [] => []
  | s, (now, ld, ed) :: rest =>
    ((s.update_state now ld ed).latency, (s.update_state now ld ed).error_state)
      :: runOutputs (s.update_state now ld ed) rest

/-- How many calls of the sequence flipped the error flag. -/
def flipCount : ServerState → List (ℚ × ℚ × ℚ) → ℕ
  | _, [] => 0
  | s, (now, ld, ed) :: rest =>
    (if (s.update_state now ld ed).error_state = s.error_state then 0 else 1)
      + flipCount (s.update_state now ld ed) rest

/-- `clamp`, as the specification words it: values below the lower bound go
to the lower bound, values above the upper bound to the upper bound. -/
def clampSpec (x lo hi : ℚ) : ℚ :=
  if x < lo then lo else if hi < x then hi else x

/- ### Helper lemmas -/

theorem update_state_latency_nonneg (s : ServerState) (now ld ed : ℚ) :
    0 ≤ (s.update_state now ld ed).latency :=
  le_max_left _ _

theorem latency_scale_bounds (e : ℚ) :
    1/10 ≤ latency_scale e ∧ latency_scale e ≤ 2 := by
  constructor
  · exact le_min (le_max_right _ _) (by norm_num)
  · exact min_le_right _ _

theorem error_scale_bounds (e : ℚ) :
    1/10 ≤ error_scale e ∧ error_scale e ≤ 2 := by
  constructor
  · exact le_min (le_max_right _ _) (by norm_num)
  · exact min_le_right _ _

theorem latency_scale_mono {e1 e2 : ℚ} (h : e1 ≤ e2) :
    latency_scale e1 ≤ latency_scale e2 := by
  unfold latency_scale
  have h5 : e1 / 5 ≤ e2 / 5 := by linarith
  exact min_le_min (max_le_max h5 le_rfl) le_rfl

theorem min_max_eq_clampSpec (x lo hi : ℚ) (hlohi : lo ≤ hi) :
    min (max x lo) hi = clampSpec x lo hi := by
  unfold clampSpec
  rcases lt_or_le x lo with hx | hx
  · rw [if_pos hx, max_eq_right hx.le, min_eq_left hlohi]
  · rw [if_neg (not_lt.mpr hx), max_eq_left hx]
    rcases lt_or_le hi x with hy | hy
    · rw [if_pos hy, min_eq_right hy.le]
    · rw [if_neg (not_lt.mpr hy), min_eq_left hy]

/- ### Claims -/

/-- C2: for every sequence of `update_state` calls starting from any state
with `latency ≥ 0`, the latency field is ≥ 0 after every call, for all
random draws and all elapsed-time values. -/
theorem latency_nonneg_after_every_call (s : ServerState) (calls : List (ℚ × ℚ × ℚ))
    (hs : 0 ≤ s.latency) :
    ∀ t ∈ runStates s calls, 0 ≤ t.latency := by
  induction calls generalizing s with
  | nil => intro t ht; simp [runStates] at ht
  | cons c rest ih =>
    obtain ⟨now, ld, ed⟩ := c
    intro t ht
    simp only [runStates, List.mem_cons] at ht
    rcases ht with h | h
    · rw [h]; exact update_state_latency_nonneg s now ld ed
    · exact ih (s.update_state now ld ed) (update_state_latency_nonneg s now ld ed) t h

/-- Witness for C2: a concrete two-call run keeps the latency non-negative. -/
theorem latency_nonneg_after_every_call_witness :
    0 ≤ (ServerState.init 0).latency ∧
      ∀ t ∈ runStates (ServerState.init 0) [(1, -1/10, 0), (2, -1/10, 0)], 0 ≤ t.latency :=
  ⟨by norm_num [ServerState.init],
    latency_nonneg_after_every_call (ServerState.init 0) [(1, -1/10, 0), (2, -1/10, 0)]
      (by norm_num [ServerState.init])⟩

/-- C3: for every `elapsed ≥ 0`, the latency scale equals
`clamp(elapsed / 5.0, 0.1, 2.0)`, the error scale equals
`clamp(elapsed / 10.0, 0.1, 2.0)`, and both lie in `[0.1, 2.0]`. -/
theorem scales_are_clamped (e : ℚ) (he : 0 ≤ e) :
    latency_scale e = clampSpec (e / 5) (1/10) 2 ∧
      error_scale e = clampSpec (e / 10) (1/10) 2 ∧
      1/10 ≤ latency_scale e ∧ latency_scale e ≤ 2 ∧
      1/10 ≤ error_scale e ∧ error_scale e ≤ 2 :=
  ⟨min_max_eq_clampSpec _ _ _ (by norm_num),
    min_max_eq_clampSpec _ _ _ (by norm_num),
    (latency_scale_bounds e).1, (latency_scale_bounds e).2,
    (error_scale_bounds e).1, (error_scale_bounds e).2⟩

/-- Witness for C3: the clamp equalities and bounds at `elapsed = 1`. -/
theorem scales_are_clamped_witness :
    latency_scale 1 = clampSpec ((1:ℚ) / 5) (1/10) 2 ∧
      error_scale 1 = clampSpec ((1:ℚ) / 10) (1/10) 2 ∧
      1/10 ≤ latency_scale 1 ∧ latency_scale 1 ≤ 2 ∧
      1/10 ≤ error_scale 1 ∧ error_scale 1 ≤ 2 :=
  scales_are_clamped 1 (by norm_num)

/-- C1: the claim says `handle_request` calls `update_state` on a single
shared instance so that state persists across requests.  The code instead
constructs a fresh `ServerState()` inside every call of `handle_request`,
so the state read by a later request is the freshly initialised one (with
`latency = 0`), not the state left by the earlier request: here the first
request leaves `latency = 1/100`, while the second request's update reads
`latency = 0`. -/
theorem fresh_state_per_request :
    (∀ tc now ld ed : ℚ, handle_request_state tc now ld ed =
        (ServerState.init tc).update_state now ld ed) ∧
      ((ServerState.init 0).update_state 0 (1/10) 1).latency = 1/100 ∧
      (ServerState.init 10).latency = 0 := by
  refine ⟨fun tc now ld ed => rfl, ?_, rfl⟩
  simp [ServerState.update_state, ServerState.init, latency_change, latency_scale]
  norm_num

/-- C4 counterexample: at `elapsed = 10`, `errorDraw = 1/10`, and the
freshly constructed state, `update_state` flips the flag even though the
draw is not below `error_rate * error_scale` (`1/10 ≥ 1/100 * 1`): the flip
threshold is the hard-coded `0.2`, not the `error_rate` field set at
construction. -/
theorem flip_not_governed_by_error_rate :
    ((ServerState.init 0).update_state 10 0 (1/10)).error_state = true ∧
      ¬ ((1:ℚ)/10 <
          (ServerState.init 0).error_rate *
            error_scale (10 - (ServerState.init 0).last_request_time)) := by
  constructor
  · simp [ServerState.update_state, ServerState.init, error_scale]
    norm_num
  · simp [ServerState.init, error_scale]
    norm_num

/-- C4 (amended): the flag is flipped exactly when the uniform draw is less
than `0.2 * error_scale`, where `0.2` is a hard-coded literal in
`update_state`; the `error_rate = 0.01` field set at construction plays no
role in the flip condition. -/
theorem flip_iff_draw_below_fixed_bias (s : ServerState) (now ld ed : ℚ) :
    (s.update_state now ld ed).error_state ≠ s.error_state ↔
      ed < 2/10 * error_scale (now - s.last_request_time) := by
  by_cases h : ed < 2/10 * error_scale (now - s.last_request_time)
  · simp only [ServerState.update_state, if_pos h]
    cases s.error_state <;> simp [h]
  · simp only [ServerState.update_state, if_neg h]
    simp [h]

/-- C5: the error flag changes only by negation of its previous value, and
starting from `error_state = false`, a run in which no call flips the flag
ends with the flag still false. -/
theorem error_flag_toggle_semantics :
    (∀ (s : ServerState) (now ld ed : ℚ),
        (s.update_state now ld ed).error_state = s.error_state ∨
          (s.update_state now ld ed).error_state = !s.error_state) ∧
      ∀ (s : ServerState) (calls : List (ℚ × ℚ × ℚ)),
        s.error_state = false → flipCount s calls = 0 →
          (runSeq s calls).error_state = false := by
  constructor
  · intro s now ld ed
    by_cases h : ed < 2/10 * error_scale (now - s.last_request_time)
    · right; simp only [ServerState.update_state, if_pos h]
    · left; simp only [ServerState.update_state, if_neg h]
  · intro s calls
    induction calls generalizing s with
    | nil => intro hs _; simpa [runSeq] using hs
    | cons c rest ih =>
      obtain ⟨now, ld, ed⟩ := c
      intro hs hflip
      simp only [flipCount, Nat.add_eq_zero] at hflip
      obtain ⟨h1, h2⟩ := hflip
      have hpost : (s.update_state now ld ed).error_state = false := by
        by_cases h : (s.update_state now ld ed).error_state = s.error_state
        · rw [h, hs]
        · simp [if_neg h] at h1
      exact ih (s.update_state now ld ed) hpost h2

/-- Witness for C5: a concrete one-call run with no flip keeps the flag
false. -/
theorem error_flag_toggle_semantics_witness :
    (runSeq (ServerState.init 0) [(1, 0, 1)]).error_state = false :=
  error_flag_toggle_semantics.2 (ServerState.init 0) [(1, 0, 1)] rfl
    (by simp [flipCount, ServerState.update_state, ServerState.init, error_scale]; norm_num)

/-- C6: from `lastObservedAt = t0`, `latency = 0`, `isErroring = false`, a
single `update_state` at `t0 + 1` with latency draw `0.05` and error draw
`0.5` gives `latency_scale = 0.2`, post latency `0.01`, `error_scale = 0.1`,
and the flag stays false. -/
theorem scenario_single_advance (t0 : ℚ) :
    latency_scale ((t0 + 1) - t0) = 1/5 ∧
      ((ServerState.init t0).update_state (t0 + 1) (1/20) (1/2)).latency = 1/100 ∧
      error_scale ((t0 + 1) - t0) = 1/10 ∧
      ((ServerState.init t0).update_state (t0 + 1) (1/20) (1/2)).error_state = false := by
  have he : (t0 + 1) - t0 = 1 := by ring
  refine ⟨?_, ?_, ?_, ?_⟩
  · rw [he]; simp [latency_scale]; norm_num
  · simp [ServerState.update_state, ServerState.init, latency_change, latency_scale, he]
    norm_num
  · rw [he]; simp [error_scale]; norm_num
  · simp [ServerState.update_state, ServerState.init, error_scale, he]
    norm_num

/-- C7: with identical draws and the same starting state, a call with
larger elapsed time applies a latency delta of magnitude at least that of a
call with smaller elapsed time. -/
theorem idle_amplification (s : ServerState) (now1 now2 d : ℚ)
    (h0 : s.last_request_time ≤ now1) (h12 : now1 ≤ now2) :
    |latency_change s now1 d| ≤ |latency_change s now2 d| := by
  unfold latency_change
  rw [abs_mul, abs_mul]
  have hs0 : (0:ℚ) ≤ latency_scale (now1 - s.last_request_time) :=
    le_trans (by norm_num) (latency_scale_bounds _).1
  have hs0b : (0:ℚ) ≤ latency_scale (now2 - s.last_request_time) :=
    le_trans (by norm_num) (latency_scale_bounds _).1
  rw [abs_of_nonneg hs0, abs_of_nonneg hs0b]
  exact mul_le_mul_of_nonneg_left (latency_scale_mono (by linarith)) (abs_nonneg d)

/-- Witness for C7: concrete elapsed times 1 and 2 from the fresh state. -/
theorem idle_amplification_witness :
    |latency_change (ServerState.init 0) 1 (1/10)| ≤
      |latency_change (ServerState.init 0) 2 (1/10)| :=
  idle_amplification (ServerState.init 0) 1 2 (1/10) (by norm_num [ServerState.init])
    (by norm_num)

/-- C8: two runs from equal initial states, with identical timestamp and
draw sequences, produce identical per-call outputs and identical final
states. -/
theorem determinism_fixed_entropy (s1 s2 : ServerState)
    (calls1 calls2 : List (ℚ × ℚ × ℚ)) (hs : s1 = s2) (hc : calls1 = calls2) :
    runOutputs s1 calls1 = runOutputs s2 calls2 ∧
      runSeq s1 calls1 = runSeq s2 calls2 := by
  subst hs; subst hc; exact ⟨rfl, rfl⟩

/-- Witness for C8: two concrete equal runs agree. -/
theorem determinism_fixed_entropy_witness :
    runOutputs (ServerState.init 0) [(1, 1/20, 1/2)] =
        runOutputs (ServerState.init 0) [(1, 1/20, 1/2)] ∧
      runSeq (ServerState.init 0) [(1, 1/20, 1/2)] =
        runSeq (ServerState.init 0) [(1, 1/20, 1/2)] :=
  determinism_fixed_entropy (ServerState.init 0) (ServerState.init 0)
    [(1, 1/20, 1/2)] [(1, 1/20, 1/2)] rfl rfl

/-- C9: the handler returns 500 with the error body exactly when the
updated state is erroring, 200 with the hello body otherwise, and these are
the only two outcomes. -/
theorem handler_two_outcomes (tc now ld ed : ℚ) :
    ((handle_request_state tc now ld ed).error_state = true →
        handle_request tc now ld ed =
          { body := [("error", "Simulated server error")], status := 500 }) ∧
      ((handle_request_state tc now ld ed).error_state = false →
        handle_request tc now ld ed =
          { body := [("message", "Hello, World!")], status := 200 }) ∧
      (handle_request tc now ld ed =
          { body := [("error", "Simulated server error")], status := 500 } ∨
        handle_request tc now ld ed =
          { body := [("message", "Hello, World!")], status := 200 }) := by
  cases h : (handle_request_state tc now ld ed).error_state <;>
    simp [handle_request, ServerState.simulate_error, h]

/-- Witness for C9: a concrete request whose error draw cannot flip the
flag yields the 200 hello response. -/
theorem handler_two_outcomes_witness :
    handle_request 0 0 0 1 =
      { body := [("message", "Hello, World!")], status := 200 } :=
  (handler_two_outcomes 0 0 0 1).2.1
    (by simp [handle_request_state, ServerState.update_state, ServerState.init, error_scale]
        norm_num)

/-- C10: for any request and any latency draw in `[-0.1, 0.1]`, the slept
latency lies in `[0, 0.2]`: the handler's fresh state has latency 0 and one
step changes it by at most `0.1 * 2.0`. -/
theorem handler_sleep_bounded (tc now ld ed : ℚ)
    (h1 : -(1/10) ≤ ld) (h2 : ld ≤ 1/10) :
    0 ≤ handle_request_sleep tc now ld ed ∧
      handle_request_sleep tc now ld ed ≤ 1/5 := by
  constructor
  · exact le_max_left _ _
  · have hb := latency_scale_bounds (now - tc)
    have hsc0 : (0:ℚ) ≤ latency_scale (now - tc) := le_trans (by norm_num) hb.1
    have hmul1 : ld * latency_scale (now - tc) ≤ 1/10 * latency_scale (now - tc) :=
      mul_le_mul_of_nonneg_right h2 hsc0
    have hmul2 : 1/10 * latency_scale (now - tc) ≤ 1/10 * 2 :=
      mul_le_mul_of_nonneg_left hb.2 (by norm_num)
    simp only [handle_request_sleep, handle_request_state, ServerState.update_state,
      ServerState.init, latency_change]
    apply max_le (by norm_num)
    linarith

/-- Witness for C10: the bound at a concrete request with draw `0.1`. -/
theorem handler_sleep_bounded_witness :
    0 ≤ handle_request_sleep 0 100 (1/10) 0 ∧
      handle_request_sleep 0 100 (1/10) 0 ≤ 1/5 :=
  handler_sleep_bounded 0 100 (1/10) 0 (by norm_num) (by norm_num)

end DriftServer
